import Mathlib

/-!
# certgen: certificate templates and issuance

A shallow embedding of `certgen/certgen.go`.

* Go pointers (`*x509.Certificate`, `*rsa.PrivateKey`, `*GenerateOptions`) are `Option` values,
  `nil` being `none`.
* A Go `error` result is an `Option GoError`, `nil` being `none`.
* The standard-library calls the package makes (`rand.Int63`, `time.Now`, `net.ParseIP`,
  `rsa.GenerateKey`, `x509.CreateCertificate`, `x509.MarshalPKCS8PrivateKey`, `os.Create`,
  `pem.Encode`) are not code of the package: they are parameters (`Ambient`, `Env`).  Every
  theorem is quantified over them.
* Effects are explicit: a `World` carries the log of library calls made so far and the file
  descriptors that are currently open; every effectful function takes a `World` and returns one.
* A call that may end in a panic has an `Outcome`: a returned value, or a panic.  The package
  hands `x509.CreateCertificate` a descriptor it has not checked for nil, so that call, and with
  it `createCertFile` and `GenerateCertificateAndKey`, may panic instead of returning.
-/

namespace Certgen

/-! ## Data model -/

/-- A byte string (`[]byte`). -/
abbrev Bytes := List Nat

/-- An address as returned by `net.ParseIP` (`net.IP`, a byte slice). -/
abbrev IP := List Nat

/-- An instant (`time.Time`); the package only stores instants and shifts them by `AddDate`. -/
abbrev Time := Int

/-- Go `error` values.  `sentinel` are the values built with `errors.New` in this package,
told apart by their text; `foreign` are errors produced by library calls. -/
inductive GoError where
  | sentinel (msg : String)
  | foreign (code : Nat)
  deriving DecidableEq

/-- Source: `errNoOptions = errors.New("no options")`. -/
def errNoOptions : GoError := GoError.sentinel "no options"

/-- Source: `errNoTemplate = errors.New("no template")`. -/
def errNoTemplate : GoError := GoError.sentinel "no template"

/-- Source: `errNoName = errors.New("no name")`. -/
def errNoName : GoError := GoError.sentinel "no name"

/-- Source: `x509.KeyUsageDigitalSignature` (`1 << 0`). -/
def KeyUsageDigitalSignature : Nat := 1

/-- Source: `x509.KeyUsageCertSign` (`1 << 5`). -/
def KeyUsageCertSign : Nat := 32

/-- Source: `x509.ExtKeyUsageServerAuth`. -/
def ExtKeyUsageServerAuth : Nat := 1

/-- Source: `x509.ExtKeyUsageClientAuth`. -/
def ExtKeyUsageClientAuth : Nat := 2

/-- Source: `pkix.Name`, the fields the package sets. -/
structure Name where
  Country : List String
  Organization : List String
  OrganizationalUnit : List String
  Locality : List String
  Province : List String
  deriving DecidableEq

/-- Source: `x509.Certificate`, the fields the package sets; the remaining fields of a template
keep their zero value throughout. -/
structure Certificate where
  SerialNumber : Int
  Subject : Name
  NotBefore : Time
  NotAfter : Time
  KeyUsage : Nat
  ExtKeyUsage : List Nat
  BasicConstraintsValid : Bool
  IsCA : Bool
  DNSNames : List String
  IPAddresses : List IP
  deriving DecidableEq

/-- Source: `rsa.PublicKey`. -/
structure PublicKey where
  N : Nat
  E : Int
  deriving DecidableEq

/-- Source: `rsa.PrivateKey`; it embeds its public half. -/
structure PrivateKey where
  PublicKey : PublicKey
  D : Nat
  Primes : List Nat
  deriving DecidableEq

/-- Bit length of a modulus (`big.Int.BitLen`): the size of an RSA key. -/
def bitLen (n : Nat) : Nat := if n = 0 then 0 else Nat.log2 n + 1

/-- The type `pem.Block`, with no headers (`Type_` is its field `Type`). -/
structure PemBlock where
  Type_ : String
  Bytes : Bytes
  deriving DecidableEq

/-- How a call ends: it returns a value, or it panics and returns nothing. -/
inductive Outcome (α : Type) where
  | returned (a : α)
  | panicked
  deriving DecidableEq

/-- Source: `TemplateCertFunc`: `func() *x509.Certificate`. -/
abbrev TemplateCertFunc := Unit → Option Certificate

/-- Source: `GenerateOptions`. -/
structure GenerateOptions where
  FileName : String
  TemplateCertificateFunc : Option TemplateCertFunc := none
  TemplateCert : Option Certificate := none
  ParentCert : Option Certificate := none
  ParentKey : Option PrivateKey := none
  KeyStrength : Int := 0

/-! ## Library calls -/

/-- What the template constructors read from outside the package: the value of `rand.Int63()`,
the two readings of `time.Now()`, `Time.AddDate` and `net.ParseIP`. -/
structure Ambient where
  randInt63 : Int
  now : Time
  nowAgain : Time
  addDate : Time → Int → Int → Int → Time
  parseIP : String → Option IP

/-- The library calls made while issuing.  Within one call of `GenerateCertificateAndKey` no
library function is called twice on the same arguments, so a function of the arguments describes
any run.  `x509.CreateCertificate` is the one call that is handed pointers the package has not
checked (a descriptor function may yield nil, and the library dereferences its template), so
its answer is an `Outcome`: besides returning bytes or an error it may panic. -/
structure Env where
  generateKey : Int → Except GoError PrivateKey
  createCertificate :
    Option Certificate → Option Certificate → PublicKey → Option PrivateKey →
      Outcome (Except GoError Bytes)
  marshalPKCS8PrivateKey : PrivateKey → Except GoError Bytes
  osCreate : String → Except GoError Nat
  pemEncode : Nat → PemBlock → Option GoError

/-- One library call (or one call of the caller's descriptor function), with its arguments. -/
inductive Event where
  | templateCertificateFunc
  | generateKey (bits : Int)
  | createCertificate (template parent : Option Certificate) (pub : PublicKey)
      (priv : Option PrivateKey)
  | marshalPKCS8PrivateKey (key : PrivateKey)
  | osCreate (name : String)
  | pemEncode (fd : Nat) (block : PemBlock)
  | printf (format : String) (err : GoError)
  deriving DecidableEq

/-- The effect state: the calls made so far, oldest first, and the open file descriptors. -/
structure World where
  log : List Event
  openHandles : List Nat
  deriving DecidableEq

/-- Append one call to the log. -/
def World.record (w : World) (e : Event) : World := { w with log := w.log ++ [e] }

/-! ## Template constructors -/

/-- Source: `CommonCertificateTemplate`. -/
def CommonCertificateTemplate (amb : Ambient) (isCA : Bool) : Certificate :=
  let cert : Certificate :=
    { SerialNumber := amb.randInt63
      Subject :=
        { Country := ["CN"]
          Organization := ["2SE"]
          OrganizationalUnit := ["BOX"]
          Province := ["Shanghai"]
          Locality := ["Shanghai"] }
      NotBefore := amb.now
      NotAfter := amb.addDate amb.nowAgain 100 0 0
      ExtKeyUsage := [ExtKeyUsageClientAuth, ExtKeyUsageServerAuth]
      KeyUsage := KeyUsageDigitalSignature ||| KeyUsageCertSign
      BasicConstraintsValid := false
      IsCA := false
      DNSNames := []
      IPAddresses := [] }
  if isCA then
    { cert with BasicConstraintsValid := true, IsCA := true }
  else
    cert

/-- Source: `ServerCertificateTemplate`; the loop over `hosts` is a left fold on the
descriptor. -/
def ServerCertificateTemplate (amb : Ambient) (hosts : List String) : Certificate :=
  hosts.foldl
    (fun serverCert h =>
      match amb.parseIP h with
      | some ip => { serverCert with IPAddresses := serverCert.IPAddresses ++ [ip] }
      | none => { serverCert with DNSNames := serverCert.DNSNames ++ [h] })
    (CommonCertificateTemplate amb false)

/-- Source: `ClientCertificateTemplate`. -/
def ClientCertificateTemplate (amb : Ambient) : Certificate :=
  CommonCertificateTemplate amb false

/-! ## Issuance -/

/-- Source: `saveFile`; `os.Create` on `fileName.suffix`, then `pem.Encode` on the handle.
The handle returned by `os.Create` becomes open; the function has no `Close`. -/
def saveFile (env : Env) (w : World) (fileName suffix typeName : String) (keyBytes : Bytes) :
    Option GoError × World :=
  let path := fileName ++ "." ++ suffix
  let w := w.record (Event.osCreate path)
  match env.osCreate path with
  | Except.error err => (some err, w)
  | Except.ok fd =>
    let w := { w with openHandles := w.openHandles ++ [fd] }
    let block : PemBlock := { Type_ := typeName, Bytes := keyBytes }
    (env.pemEncode fd block, w.record (Event.pemEncode fd block))

/-- Source: `saveCertFile`. -/
def saveCertFile (env : Env) (w : World) (fileName : String) (keyBytes : Bytes) :
    Option GoError × World :=
  saveFile env w fileName "pem" "CERTIFICATE" keyBytes

/-- Source: `saveKeyFile`. -/
def saveKeyFile (env : Env) (w : World) (fileName : String) (keyBytes : Bytes) :
    Option GoError × World :=
  saveFile env w fileName "key" "PRIVATE KEY" keyBytes

/-- Source: `createCertFile`.  When `x509.CreateCertificate` panics, so does this call: nothing
recovers.  (The `panic` statement that follows `return err` in the source is never reached.) -/
def createCertFile (env : Env) (w : World) (certKey : PrivateKey) (options : GenerateOptions) :
    Outcome (Option GoError) × World :=
  let w := w.record
    (Event.createCertificate options.TemplateCert options.ParentCert certKey.PublicKey
      options.ParentKey)
  match env.createCertificate options.TemplateCert options.ParentCert certKey.PublicKey
      options.ParentKey with
  | Outcome.panicked => (Outcome.panicked, w)
  | Outcome.returned (Except.error err) => (Outcome.returned (some err), w)
  | Outcome.returned (Except.ok certificate) =>
    match saveCertFile env w options.FileName certificate with
    | (err, w) => (Outcome.returned err, w)

/-- Source: `createKeyFile`; the `fmt.Printf` on a serialization failure is logged as
`Event.printf`. -/
def createKeyFile (env : Env) (w : World) (certKey : PrivateKey) (options : GenerateOptions) :
    Option GoError × World :=
  let w := w.record (Event.marshalPKCS8PrivateKey certKey)
  match env.marshalPKCS8PrivateKey certKey with
  | Except.error err =>
    (some err, w.record (Event.printf "marshal pkcs8 failed. cause: %v\n" err))
  | Except.ok keyBytes => saveKeyFile env w options.FileName keyBytes

/-- Source: `GenerateCertificateAndKey`.  The result is how the call ends, a returned Go pair
`(key, err)` or a panic, together with the world after the call.  The result of the descriptor
function is not checked for nil (line 122): a nil descriptor reaches `x509.CreateCertificate`
as template and as issuer.  The innermost `none` branch of the descriptor resolution (a nil
descriptor function being called) is excluded by the check just above it. -/
def GenerateCertificateAndKey (env : Env) (w : World) (options : Option GenerateOptions) :
    Outcome (Option PrivateKey × Option GoError) × World :=
  match options with
  | none => (Outcome.returned (none, some errNoOptions), w)
  | some options =>
    if options.FileName = "" then
      (Outcome.returned (none, some errNoName), w)
    else if options.TemplateCert.isNone && options.TemplateCertificateFunc.isNone then
      (Outcome.returned (none, some errNoTemplate), w)
    else
      let (cert, w) : Option Certificate × World :=
        match options.TemplateCert with
        | some c => (some c, w)
        | none =>
          match options.TemplateCertificateFunc with
          | some f => (f (), w.record Event.templateCertificateFunc)
          | none => (none, w)
      let ks : Int := if options.KeyStrength ≤ 0 then 2048 else options.KeyStrength
      let w := w.record (Event.generateKey ks)
      match env.generateKey ks with
      | Except.error err => (Outcome.returned (none, some err), w)
      | Except.ok certKey =>
        let parentKey : Option PrivateKey :=
          match options.ParentKey with
          | none => some certKey
          | some k => some k
        let parentCert : Option Certificate :=
          match options.ParentCert with
          | none => cert
          | some c => some c
        let createOpt : GenerateOptions :=
          { FileName := options.FileName
            TemplateCert := cert
            ParentCert := parentCert
            ParentKey := parentKey }
        match createCertFile env w certKey createOpt with
        | (Outcome.panicked, w) => (Outcome.panicked, w)
        | (Outcome.returned (some err), w) => (Outcome.returned (none, some err), w)
        | (Outcome.returned none, w) =>
          match createKeyFile env w certKey createOpt with
          | (some err, w) => (Outcome.returned (none, some err), w)
          | (none, w) => (Outcome.returned (some certKey, none), w)

/-! ## Observations on the log -/

/-- Calls that sign a certificate. -/
def Event.isSign : Event → Bool
  | Event.createCertificate _ _ _ _ => true
  | _ => false

/-- Calls that create or write a file. -/
def Event.isSave : Event → Bool
  | Event.osCreate _ => true
  | Event.pemEncode _ _ => true
  | _ => false

/-- The key strengths handed to `rsa.GenerateKey`, in call order. -/
def keyGenRequests (log : List Event) : List Int :=
  log.filterMap fun e =>
    match e with
    | Event.generateKey bits => some bits
    | _ => none

/-- The names of the files created, in call order. -/
def createdFiles (log : List Event) : List String :=
  log.filterMap fun e =>
    match e with
    | Event.osCreate name => some name
    | _ => none

/-- The calls that one run of `GenerateCertificateAndKey` adds to the log. -/
def callsOf (env : Env) (w : World) (options : Option GenerateOptions) : List Event :=
  (GenerateCertificateAndKey env w options).2.log.drop w.log.length

/-! ## Sample inputs -/

/-- A sample reading of the outside world for the template constructors; its address parser
knows two literals. -/
def sampleAmbient : Ambient :=
  { randInt63 := 6129484611666145821
    now := 1541030400
    nowAgain := 1541030401
    addDate := fun t years months days => t + ((years * 365 + months * 30 + days) * 86400)
    parseIP := fun s =>
      if s = "10.0.0.1" then some [0, 0, 0, 0, 0, 0, 0, 0, 0, 0, 255, 255, 10, 0, 0, 1]
      else if s = "127.0.0.1" then some [0, 0, 0, 0, 0, 0, 0, 0, 0, 0, 255, 255, 127, 0, 0, 1]
      else none }

/-- A sample 2048-bit key: its modulus is the product of the two 1024-bit primes listed. -/
def sampleKey : PrivateKey :=
  { PublicKey :=
      { N := 22178162999333102916494292903753204738732177073529290974792309258652559070499636395254803319325242786661767603092116322308740364357084093053771764434794848643394759661328641992441739130410686529323331050248119288004003945647315930963482538645305759059031047230869955791066536392013014195397330478009780864034199606084417259171016963236465055162393138448899253011694234268044331331941660158064198782651794345807324959321211510555407688154628380823458496939073064058002509420481569252611069955024089187841021999981278429208150468910177904492843888961832420287979925129688704577543929421253199473872437942206910750473941
        E := 65537 }
    D := 19265157718373349648795391926968982293533181387902238520285508549152868384644915091405781438971371082012722094029801335317672157750346221729071711819406380188593012691453350931347418510996078145594822975717154934567953074168119514683615323291249394349322954785940700874767335249720141067332569796948575839733066709246485784515606398029391568691689380812196734481004295826982692393461280375362910011195789847093877894587825111102225370441569530921853650129114543662206018864017652724841109797408408925007642599311709070350129701175724878867968359850636106222057362510241804344650094663481996270057903941536779285376397
    Primes :=
      [149864612910759385412973114688340687748202465609840453617840622968577814079487535148949008087540901075728906279445215033561107706403667086574923058257606648152972293605815378595607056682123077234882400554038138454311127216329192687731115006434447409243917619053320154756674634416044271194094004694134924683363,
        147987991084590744530082137230433364011568977212766425497593110849529424864369535558032303613797978993721233923174816551435294414232506812020627605423656254199589678455354663983461408894498287208119732029403031298439629316089021904182801541845328471228878159448517775993296453463662087556264670065676737000807] }

/-- A library in which every call succeeds, for keys of 2048 bits.  `x509.CreateCertificate`
panics on a nil template or a nil issuer; `os.Create` hands out the descriptor 3 for a `.pem`
name and 4 otherwise. -/
def sampleEnv : Env :=
  { generateKey := fun bits =>
      if bits = 2048 then Except.ok sampleKey else Except.error (GoError.foreign 1)
    createCertificate := fun template parent pub _ =>
      match template, parent with
      | some _, some _ => Outcome.returned (Except.ok [48, 130, pub.N % 256])
      | _, _ => Outcome.panicked
    marshalPKCS8PrivateKey := fun key => Except.ok [48, 129, key.D % 256]
    osCreate := fun name => Except.ok (if name.toList.getLast? = some 'm' then 3 else 4)
    pemEncode := fun _ _ => none }

/-- The initial world: nothing called, nothing open. -/
def emptyWorld : World := { log := [], openHandles := [] }

/-- The CA request of `example.go`: `ParentCert` is set, `ParentKey` is nil. -/
def caRequest (bits : Int) : GenerateOptions :=
  { FileName := "ca"
    TemplateCert := some (CommonCertificateTemplate sampleAmbient true)
    ParentCert := some (CommonCertificateTemplate sampleAmbient true)
    ParentKey := none
    KeyStrength := bits }

/-- A request that supplies both a descriptor and a descriptor function. -/
def bothRequest : GenerateOptions :=
  { FileName := "client"
    TemplateCertificateFunc := some fun _ => some (ClientCertificateTemplate sampleAmbient)
    TemplateCert := some (ClientCertificateTemplate sampleAmbient)
    KeyStrength := 2048 }

/-- A request with a parent certificate that is not its own descriptor, and no parent key. -/
def mixedRequest : GenerateOptions :=
  { FileName := "server"
    TemplateCert := some (ServerCertificateTemplate sampleAmbient ["localhost", "127.0.0.1"])
    ParentCert := some (CommonCertificateTemplate sampleAmbient true)
    ParentKey := none
    KeyStrength := 2048 }

/-- A self-signed request whose descriptor comes from a descriptor function. -/
def selfSignedRequest : GenerateOptions :=
  { FileName := "self"
    TemplateCertificateFunc := some fun _ => some (CommonCertificateTemplate sampleAmbient true)
    KeyStrength := 2048 }

/-- The library of `sampleEnv`, except that `pem.Encode` fails on every write. -/
def encodeFailEnv : Env :=
  { sampleEnv with pemEncode := fun _ _ => some (GoError.foreign 5) }

theorem path_pem (s : String) : s ++ "." ++ "pem" = s ++ ".pem" := by
  rw [String.append_assoc]; rfl

theorem path_key (s : String) : s ++ "." ++ "key" = s ++ ".key" := by
  rw [String.append_assoc]; rfl

/-- Every way a run on a validated request can go, with the outcome and the world it leaves:
the run stops at the first library call that fails or panics. -/
theorem generate_cases (env : Env) (w : World) (o : GenerateOptions) (hname : o.FileName ≠ "")
    (hsrc : ¬ (o.TemplateCert = none ∧ o.TemplateCertificateFunc = none)) :
    ∃ (tmpl : List Event) (cert : Option Certificate) (bits : Int) (issuer : Option Certificate),
      ((∃ c, o.TemplateCert = some c ∧ cert = some c ∧ tmpl = []) ∨
        (∃ f, o.TemplateCert = none ∧ o.TemplateCertificateFunc = some f ∧ cert = f () ∧
          tmpl = [Event.templateCertificateFunc])) ∧
      ((o.KeyStrength ≤ 0 ∧ bits = 2048) ∨ (0 < o.KeyStrength ∧ bits = o.KeyStrength)) ∧
      ((o.ParentCert = none ∧ issuer = cert) ∨ (∃ p, o.ParentCert = some p ∧ issuer = some p)) ∧
      ((∃ e, env.generateKey bits = Except.error e ∧
           GenerateCertificateAndKey env w (some o) =
             (Outcome.returned (none, some e),
               { log := w.log ++ (tmpl ++
                   [Event.generateKey bits]),
                 openHandles := w.openHandles })) ∨
        (∃ k signer, env.generateKey bits = Except.ok k ∧
          ((o.ParentKey = none ∧ signer = k) ∨ o.ParentKey = some signer) ∧
        ((env.createCertificate cert issuer k.PublicKey (some signer) = Outcome.panicked ∧
            GenerateCertificateAndKey env w (some o) =
              (Outcome.panicked,
                { log := w.log ++ (tmpl ++
                    [Event.generateKey bits,
                     Event.createCertificate cert issuer k.PublicKey (some signer)]),
                  openHandles := w.openHandles })) ∨
         (∃ e, env.createCertificate cert issuer k.PublicKey (some signer) =
              Outcome.returned (Except.error e) ∧
             GenerateCertificateAndKey env w (some o) =
               (Outcome.returned (none, some e),
                 { log := w.log ++ (tmpl ++
                     [Event.generateKey bits,
                      Event.createCertificate cert issuer k.PublicKey (some signer)]),
                   openHandles := w.openHandles })) ∨
          (∃ der, env.createCertificate cert issuer k.PublicKey (some signer) =
              Outcome.returned (Except.ok der) ∧
          ((∃ e, env.osCreate (o.FileName ++ ".pem") = Except.error e ∧
               GenerateCertificateAndKey env w (some o) =
                 (Outcome.returned (none, some e),
                   { log := w.log ++ (tmpl ++
                       [Event.generateKey bits,
                        Event.createCertificate cert issuer k.PublicKey (some signer),
                        Event.osCreate (o.FileName ++ ".pem")]),
                     openHandles := w.openHandles })) ∨
            (∃ fd, env.osCreate (o.FileName ++ ".pem") = Except.ok fd ∧
            ((∃ e, env.pemEncode fd { Type_ := "CERTIFICATE", Bytes := der } = some e ∧
                 GenerateCertificateAndKey env w (some o) =
                   (Outcome.returned (none, some e),
                     { log := w.log ++ (tmpl ++
                         [Event.generateKey bits,
                          Event.createCertificate cert issuer k.PublicKey (some signer),
                          Event.osCreate (o.FileName ++ ".pem"),
                          Event.pemEncode fd { Type_ := "CERTIFICATE", Bytes := der }]),
                       openHandles := w.openHandles ++ [fd] })) ∨
              (env.pemEncode fd { Type_ := "CERTIFICATE", Bytes := der } = none ∧
              ((∃ e, env.marshalPKCS8PrivateKey k = Except.error e ∧
                   GenerateCertificateAndKey env w (some o) =
                     (Outcome.returned (none, some e),
                       { log := w.log ++ (tmpl ++
                           [Event.generateKey bits,
                            Event.createCertificate cert issuer k.PublicKey (some signer),
                            Event.osCreate (o.FileName ++ ".pem"),
                            Event.pemEncode fd { Type_ := "CERTIFICATE", Bytes := der },
                            Event.marshalPKCS8PrivateKey k,
                            Event.printf "marshal pkcs8 failed. cause: %v\n" e]),
                         openHandles := w.openHandles ++ [fd] })) ∨
                (∃ kb, env.marshalPKCS8PrivateKey k = Except.ok kb ∧
                ((∃ e, env.osCreate (o.FileName ++ ".key") = Except.error e ∧
                     GenerateCertificateAndKey env w (some o) =
                       (Outcome.returned (none, some e),
                         { log := w.log ++ (tmpl ++
                             [Event.generateKey bits,
                              Event.createCertificate cert issuer k.PublicKey (some signer),
                              Event.osCreate (o.FileName ++ ".pem"),
                              Event.pemEncode fd { Type_ := "CERTIFICATE", Bytes := der },
                              Event.marshalPKCS8PrivateKey k,
                              Event.osCreate (o.FileName ++ ".key")]),
                           openHandles := w.openHandles ++ [fd] })) ∨
                  (∃ fd2, env.osCreate (o.FileName ++ ".key") = Except.ok fd2 ∧
                  ((∃ e, env.pemEncode fd2 { Type_ := "PRIVATE KEY", Bytes := kb } = some e ∧
                       GenerateCertificateAndKey env w (some o) =
                         (Outcome.returned (none, some e),
                           { log := w.log ++ (tmpl ++
                               [Event.generateKey bits,
                                Event.createCertificate cert issuer k.PublicKey (some signer),
                                Event.osCreate (o.FileName ++ ".pem"),
                                Event.pemEncode fd { Type_ := "CERTIFICATE", Bytes := der },
                                Event.marshalPKCS8PrivateKey k,
                                Event.osCreate (o.FileName ++ ".key"),
                                Event.pemEncode fd2 { Type_ := "PRIVATE KEY", Bytes := kb }]),
                             openHandles := w.openHandles ++ [fd, fd2] })) ∨
                    (env.pemEncode fd2 { Type_ := "PRIVATE KEY", Bytes := kb } = none ∧
                    GenerateCertificateAndKey env w (some o) =
                      (Outcome.returned (some k, none),
                        { log := w.log ++ (tmpl ++
                            [Event.generateKey bits,
                             Event.createCertificate cert issuer k.PublicKey (some signer),
                             Event.osCreate (o.FileName ++ ".pem"),
                             Event.pemEncode fd { Type_ := "CERTIFICATE", Bytes := der },
                             Event.marshalPKCS8PrivateKey k,
                             Event.osCreate (o.FileName ++ ".key"),
                             Event.pemEncode fd2 { Type_ := "PRIVATE KEY", Bytes := kb }]),
                          openHandles := w.openHandles ++ [fd, fd2] }))))))))))))))) := by
  obtain ⟨tmpl, htmpl⟩ : ∃ t : List Event, t =
      (match o.TemplateCert with
        | some _ => []
        | none => [Event.templateCertificateFunc]) := ⟨_, rfl⟩
  obtain ⟨cert, hcert⟩ : ∃ c : Option Certificate, c =
      (match o.TemplateCert, o.TemplateCertificateFunc with
        | some c, _ => some c
        | none, some f => f ()
        | none, none => none) := ⟨_, rfl⟩
  obtain ⟨bits, hbits⟩ : ∃ b : Int, b = if o.KeyStrength ≤ 0 then 2048 else o.KeyStrength :=
    ⟨_, rfl⟩
  obtain ⟨issuer, hissuer⟩ : ∃ i : Option Certificate, i =
      (match o.ParentCert with
        | none => cert
        | some p => some p) := ⟨_, rfl⟩
  refine ⟨tmpl, cert, bits, issuer, ?_, ?_, ?_, ?_⟩
  · cases hT : o.TemplateCert <;> cases hF : o.TemplateCertificateFunc <;> simp_all
  · by_cases h : o.KeyStrength ≤ 0
    · exact Or.inl ⟨h, by simp [hbits, h]⟩
    · exact Or.inr ⟨by omega, by simp [hbits, h]⟩
  · cases hPC : o.ParentCert <;> simp_all
  · have hsigner : ∀ k : PrivateKey, ∃ s : PrivateKey,
        ((o.ParentKey = none ∧ s = k) ∨ o.ParentKey = some s) ∧
        (match o.ParentKey with
          | none => some k
          | some p => some p) = some s := by
      intro k
      cases hPK : o.ParentKey with
      | none => exact ⟨k, Or.inl ⟨rfl, rfl⟩, rfl⟩
      | some p => exact ⟨p, Or.inr rfl, rfl⟩
    have hG : GenerateCertificateAndKey env w (some o) =
        (match env.generateKey bits with
          | Except.error e =>
            (Outcome.returned (none, some e),
              { log := w.log ++ (tmpl ++ [Event.generateKey bits]),
                openHandles := w.openHandles })
          | Except.ok k =>
            (match createCertFile env
                { log := w.log ++ (tmpl ++ [Event.generateKey bits]),
                  openHandles := w.openHandles } k
                { FileName := o.FileName, TemplateCert := cert, ParentCert := issuer,
                  ParentKey :=
                    (match o.ParentKey with
                      | none => some k
                      | some p => some p) } with
              | (Outcome.panicked, w1) => (Outcome.panicked, w1)
              | (Outcome.returned (some e), w1) => (Outcome.returned (none, some e), w1)
              | (Outcome.returned none, w1) =>
                (match createKeyFile env w1 k
                    { FileName := o.FileName, TemplateCert := cert, ParentCert := issuer,
                      ParentKey :=
                        (match o.ParentKey with
                          | none => some k
                          | some p => some p) } with
                  | (some e, w2) => (Outcome.returned (none, some e), w2)
                  | (none, w2) => (Outcome.returned (some k, none), w2)))) := by
      subst htmpl hcert hbits hissuer
      cases hT : o.TemplateCert <;> cases hF : o.TemplateCertificateFunc <;>
        cases hPC : o.ParentCert <;>
        simp_all [GenerateCertificateAndKey, World.record]
    rw [hG]
    cases hg : env.generateKey bits with
    | error e => exact Or.inl ⟨e, rfl, rfl⟩
    | ok k =>
      obtain ⟨signer, hsf, hse⟩ := hsigner k
      refine Or.inr ⟨k, signer, rfl, hsf, ?_⟩
      simp only [hse, createCertFile, createKeyFile, World.record, saveCertFile, saveKeyFile,
        saveFile, path_pem, path_key]
      cases hs : env.createCertificate cert issuer k.PublicKey (some signer) with
      | panicked => exact Or.inl ⟨rfl, by simp⟩
      | returned r =>
        cases r with
        | error e => exact Or.inr (Or.inl ⟨e, rfl, by simp⟩)
        | ok der =>
          refine Or.inr (Or.inr ⟨der, rfl, ?_⟩)
          cases hc : env.osCreate (o.FileName ++ ".pem") with
          | error e => exact Or.inl ⟨e, rfl, by simp⟩
          | ok fd =>
            refine Or.inr ⟨fd, rfl, ?_⟩
            cases he : env.pemEncode fd { Type_ := "CERTIFICATE", Bytes := der } with
            | some e => exact Or.inl ⟨e, rfl, by simp [he]⟩
            | none =>
              refine Or.inr ⟨rfl, ?_⟩
              cases hm : env.marshalPKCS8PrivateKey k with
              | error e => exact Or.inl ⟨e, rfl, by simp [he]⟩
              | ok kb =>
                refine Or.inr ⟨kb, rfl, ?_⟩
                cases hc2 : env.osCreate (o.FileName ++ ".key") with
                | error e => exact Or.inl ⟨e, rfl, by simp [he]⟩
                | ok fd2 =>
                  refine Or.inr ⟨fd2, rfl, ?_⟩
                  cases he2 : env.pemEncode fd2 { Type_ := "PRIVATE KEY", Bytes := kb } with
                  | some e => exact Or.inl ⟨e, rfl, by simp [he, he2]⟩
                  | none => exact Or.inr ⟨rfl, by simp [he, he2]⟩

theorem callsOf_eq {env : Env} {w : World} {options : Option GenerateOptions}
    {r : Outcome (Option PrivateKey × Option GoError)} {calls : List Event}
    {handles : List Nat}
    (h : GenerateCertificateAndKey env w options =
      (r, { log := w.log ++ calls, openHandles := handles })) :
    callsOf env w options = calls := by
  simp [callsOf, h]

/-- The loop of `ServerCertificateTemplate` appends to the two SAN lists and touches nothing
else. -/
theorem foldl_sans (amb : Ambient) (hosts : List String) (c : Certificate) :
    (hosts.foldl
      (fun serverCert h =>
        match amb.parseIP h with
        | some ip => { serverCert with IPAddresses := serverCert.IPAddresses ++ [ip] }
        | none => { serverCert with DNSNames := serverCert.DNSNames ++ [h] }) c).IPAddresses =
      c.IPAddresses ++ hosts.filterMap amb.parseIP ∧
    (hosts.foldl
      (fun serverCert h =>
        match amb.parseIP h with
        | some ip => { serverCert with IPAddresses := serverCert.IPAddresses ++ [ip] }
        | none => { serverCert with DNSNames := serverCert.DNSNames ++ [h] }) c).DNSNames =
      c.DNSNames ++ hosts.filter (fun h => (amb.parseIP h).isNone) ∧
    (hosts.foldl
      (fun serverCert h =>
        match amb.parseIP h with
        | some ip => { serverCert with IPAddresses := serverCert.IPAddresses ++ [ip] }
        | none => { serverCert with DNSNames := serverCert.DNSNames ++ [h] }) c).IsCA = c.IsCA ∧
    (hosts.foldl
      (fun serverCert h =>
        match amb.parseIP h with
        | some ip => { serverCert with IPAddresses := serverCert.IPAddresses ++ [ip] }
        | none => { serverCert with DNSNames := serverCert.DNSNames ++ [h] })
      c).BasicConstraintsValid = c.BasicConstraintsValid := by
  induction hosts generalizing c with
  | nil => simp
  | cons h t ih =>
    simp only [List.foldl_cons]
    cases hp : amb.parseIP h with
    | none =>
      have := ih { c with DNSNames := c.DNSNames ++ [h] }
      simp_all [List.filterMap_cons, List.filter_cons]
    | some ip =>
      have := ih { c with IPAddresses := c.IPAddresses ++ [ip] }
      simp_all [List.filterMap_cons, List.filter_cons]

theorem filterMap_length_add_filter_length (f : String → Option IP) (hosts : List String) :
    (hosts.filterMap f).length + (hosts.filter (fun h => (f h).isNone)).length =
      hosts.length := by
  induction hosts with
  | nil => simp
  | cons h t ih =>
    cases hp : f h <;> simp [List.filterMap_cons, List.filter_cons, hp] <;> omega

/-- Once key generation has succeeded, the run calls the signer next, exactly once, on the
resolved descriptor, issuer and signing key. -/
theorem after_keygen (env : Env) (w : World) (o : GenerateOptions) (hname : o.FileName ≠ "")
    (hsrc : ¬ (o.TemplateCert = none ∧ o.TemplateCertificateFunc = none))
    (bits : Int) (k : PrivateKey)
    (hcall : Event.generateKey bits ∈ callsOf env w (some o))
    (hk : env.generateKey bits = Except.ok k) :
    ∃ (tmpl : List Event) (cert issuer : Option Certificate) (signer : PrivateKey)
      (rest : List Event),
      ((∃ c, o.TemplateCert = some c ∧ cert = some c ∧ tmpl = []) ∨
        (∃ f, o.TemplateCert = none ∧ o.TemplateCertificateFunc = some f ∧ cert = f () ∧
          tmpl = [Event.templateCertificateFunc])) ∧
      ((o.ParentCert = none ∧ issuer = cert) ∨ (∃ p, o.ParentCert = some p ∧ issuer = some p)) ∧
      ((o.ParentKey = none ∧ signer = k) ∨ o.ParentKey = some signer) ∧
      callsOf env w (some o) =
        tmpl ++ Event.generateKey bits ::
          Event.createCertificate cert issuer k.PublicKey (some signer) :: rest ∧
      rest.filter Event.isSign = [] ∧ tmpl.filter Event.isSign = [] := by
  obtain ⟨tmpl, cert, bits', issuer, hres, -, hiss, hcases⟩ := generate_cases env w o hname hsrc
  have htmpl : tmpl.filter Event.isSign = [] ∧ Event.generateKey bits ∉ tmpl := by
    rcases hres with ⟨c, -, -, rfl⟩ | ⟨f, -, -, -, rfl⟩ <;> simp [Event.isSign]
  rcases hcases with ⟨e, hg, hG⟩ | ⟨k', signer, hg, hsig, ⟨hp, hG⟩ | ⟨e, -, hG⟩ | ⟨der, -, ⟨e, -, hG⟩ |
    ⟨fd, -, ⟨e, -, hG⟩ | ⟨-, ⟨e, -, hG⟩ | ⟨kb, -, ⟨e, -, hG⟩ | ⟨fd2, -, ⟨e, -, hG⟩ |
    ⟨-, hG⟩⟩⟩⟩⟩⟩⟩
  · rw [callsOf_eq hG] at hcall
    simp [htmpl.2] at hcall
    subst hcall
    rw [hk] at hg
    cases hg
  all_goals
    rw [callsOf_eq hG] at hcall ⊢
    simp [htmpl.2] at hcall
    subst hcall
    rw [hk] at hg
    cases hg
    exact ⟨tmpl, cert, issuer, signer, _, hres, hiss, hsig, rfl, by simp [Event.isSign],
      htmpl.1⟩

/-- C1: `GenerateCertificateAndKey` validates in a fixed order before doing anything else.  A nil
request gives `(nil, errNoOptions)`; a request with an empty `FileName` gives `(nil, errNoName)`
whatever its other fields; a request with a non-empty `FileName` and neither descriptor source
gives `(nil, errNoTemplate)`.  In the three cases the world is returned as it was: no call is
logged (no descriptor function, no key generation, no signing, no save) and no handle opened. -/
theorem validation_short_circuits (env : Env) (w : World) :
    GenerateCertificateAndKey env w none = (Outcome.returned (none, some errNoOptions), w) ∧
    (∀ o : GenerateOptions, o.FileName = "" →
      GenerateCertificateAndKey env w (some o) =
        (Outcome.returned (none, some errNoName), w)) ∧
    (∀ o : GenerateOptions, o.FileName ≠ "" → o.TemplateCert = none →
      o.TemplateCertificateFunc = none →
      GenerateCertificateAndKey env w (some o) =
        (Outcome.returned (none, some errNoTemplate), w)) := by
  refine ⟨rfl, ?_, ?_⟩
  · intro o h
    simp [GenerateCertificateAndKey, h]
  · intro o h1 h2 h3
    simp [GenerateCertificateAndKey, h1, h2, h3]

/-- Witness of C1: an unnamed request that carries a descriptor, and a named request that
carries none. -/
theorem validation_short_circuits_witness :
    GenerateCertificateAndKey sampleEnv emptyWorld
        (some { FileName := "", TemplateCert := some (ClientCertificateTemplate sampleAmbient) }) =
      (Outcome.returned (none, some errNoName), emptyWorld) ∧
    GenerateCertificateAndKey sampleEnv emptyWorld (some { FileName := "ca" }) =
      (Outcome.returned (none, some errNoTemplate), emptyWorld) :=
  ⟨(validation_short_circuits sampleEnv emptyWorld).2.1 _ rfl,
    (validation_short_circuits sampleEnv emptyWorld).2.2 _ (by decide) rfl rfl⟩

/-- C2, counterexample: `bothRequest` has a non-empty name and supplies both a descriptor and a
descriptor function; the run is not rejected with `errNoTemplate`: a key is generated and
returned with a nil error. -/
theorem both_sources_accepted :
    bothRequest.FileName ≠ "" ∧
    bothRequest.TemplateCert.isSome = true ∧
    bothRequest.TemplateCertificateFunc.isSome = true ∧
    (∀ key, (GenerateCertificateAndKey sampleEnv emptyWorld (some bothRequest)).1 ≠
      Outcome.returned (key, some errNoTemplate)) ∧
    (GenerateCertificateAndKey sampleEnv emptyWorld (some bothRequest)).1 =
      Outcome.returned (some sampleKey, none) ∧
    keyGenRequests (callsOf sampleEnv emptyWorld (some bothRequest)) = [2048] := by
  have hret : (GenerateCertificateAndKey sampleEnv emptyWorld (some bothRequest)).1 =
      Outcome.returned (some sampleKey, none) := by decide
  refine ⟨by decide, by decide, by decide, ?_, hret, by decide⟩
  intro key h
  rw [hret] at h
  cases h

/-- C2, amended: for a request with a non-empty `FileName`, the run is rejected with
`errNoTemplate`, before any call, when both descriptor sources are nil; as soon as one of them
is supplied the request passes validation and key generation is invoked once.  When
`TemplateCert` is supplied it is the descriptor that is signed and the descriptor function is
not invoked, also when a descriptor function is supplied as well; when only the function is
supplied it is invoked and its result is the descriptor that is signed. -/
theorem template_source_check (env : Env) (w : World) (o : GenerateOptions)
    (hname : o.FileName ≠ "") :
    (o.TemplateCert = none → o.TemplateCertificateFunc = none →
      GenerateCertificateAndKey env w (some o) =
        (Outcome.returned (none, some errNoTemplate), w)) ∧
    (∀ c, o.TemplateCert = some c →
      Event.templateCertificateFunc ∉ callsOf env w (some o) ∧
      (∃ bits, keyGenRequests (callsOf env w (some o)) = [bits]) ∧
      ∀ t p pub priv, Event.createCertificate t p pub priv ∈ callsOf env w (some o) →
        t = some c) ∧
    (∀ f, o.TemplateCert = none → o.TemplateCertificateFunc = some f →
      Event.templateCertificateFunc ∈ callsOf env w (some o) ∧
      (∃ bits, keyGenRequests (callsOf env w (some o)) = [bits]) ∧
      ∀ t p pub priv, Event.createCertificate t p pub priv ∈ callsOf env w (some o) →
        t = f ()) := by
  refine ⟨fun h1 h2 => by simp [GenerateCertificateAndKey, hname, h1, h2], ?_, ?_⟩
  · intro c hc
    have hsrc : ¬ (o.TemplateCert = none ∧ o.TemplateCertificateFunc = none) := by simp [hc]
    obtain ⟨tmpl, cert, bits, issuer, hres, -, -, hcases⟩ := generate_cases env w o hname hsrc
    have hres' : cert = some c ∧ tmpl = [] := by
      rcases hres with ⟨c', h1, h2, h3⟩ | ⟨f, h1, -⟩
      · rw [hc] at h1; cases h1; exact ⟨h2, h3⟩
      · rw [hc] at h1; cases h1
    obtain ⟨rfl, rfl⟩ := hres'
    rcases hcases with ⟨e, -, hG⟩ | ⟨k, signer, -, -, ⟨hp, hG⟩ | ⟨e, -, hG⟩ | ⟨der, -, ⟨e, -, hG⟩ |
      ⟨fd, -, ⟨e, -, hG⟩ | ⟨-, ⟨e, -, hG⟩ | ⟨kb, -, ⟨e, -, hG⟩ | ⟨fd2, -, ⟨e, -, hG⟩ |
      ⟨-, hG⟩⟩⟩⟩⟩⟩⟩ <;>
    · rw [callsOf_eq hG]
      simp [keyGenRequests]
      all_goals (intro t p pub priv h1 _ _ _; exact h1)
  · intro f hT hF
    have hsrc : ¬ (o.TemplateCert = none ∧ o.TemplateCertificateFunc = none) := by simp [hF]
    obtain ⟨tmpl, cert, bits, issuer, hres, -, -, hcases⟩ := generate_cases env w o hname hsrc
    have hres' : cert = f () ∧ tmpl = [Event.templateCertificateFunc] := by
      rcases hres with ⟨c', h1, -⟩ | ⟨f', -, h1, h2, h3⟩
      · rw [hT] at h1; cases h1
      · rw [hF] at h1; cases h1; exact ⟨h2, h3⟩
    obtain ⟨rfl, rfl⟩ := hres'
    rcases hcases with ⟨e, -, hG⟩ | ⟨k, signer, -, -, ⟨hp, hG⟩ | ⟨e, -, hG⟩ | ⟨der, -, ⟨e, -, hG⟩ |
      ⟨fd, -, ⟨e, -, hG⟩ | ⟨-, ⟨e, -, hG⟩ | ⟨kb, -, ⟨e, -, hG⟩ | ⟨fd2, -, ⟨e, -, hG⟩ |
      ⟨-, hG⟩⟩⟩⟩⟩⟩⟩ <;>
    · rw [callsOf_eq hG]
      simp [keyGenRequests]
      all_goals (intro t p pub priv h1 _ _ _; exact h1)

/-- Witness of the amended C2, on the request that supplies both sources. -/
theorem template_source_check_witness :
    Event.templateCertificateFunc ∉ callsOf sampleEnv emptyWorld (some bothRequest) ∧
    (∃ bits, keyGenRequests (callsOf sampleEnv emptyWorld (some bothRequest)) = [bits]) ∧
    ∀ t p pub priv,
      Event.createCertificate t p pub priv ∈ callsOf sampleEnv emptyWorld (some bothRequest) →
        t = some (ClientCertificateTemplate sampleAmbient) :=
  (template_source_check sampleEnv emptyWorld bothRequest (by decide)).2.1
    (ClientCertificateTemplate sampleAmbient) rfl

/-! ## Signing inputs -/

/-- C3: for a request that passes validation and whose key generation returns the key `k`, the
one signing call of the run receives the resolved descriptor as template, the public half of
`k` as the key to certify, the request's `ParentKey` as signing key when that is non-nil and `k`
otherwise, and the request's `ParentCert` as issuer when that is non-nil and the resolved
descriptor otherwise.  With `ParentCert` and `ParentKey` both nil, template and issuer are the
same descriptor and the signing key is `k` itself. -/
theorem signing_inputs (env : Env) (w : World) (o : GenerateOptions) (hname : o.FileName ≠ "")
    (hsrc : ¬ (o.TemplateCert = none ∧ o.TemplateCertificateFunc = none))
    (bits : Int) (k : PrivateKey)
    (hcall : Event.generateKey bits ∈ callsOf env w (some o))
    (hk : env.generateKey bits = Except.ok k) :
    ∃ (cert issuer : Option Certificate) (signer : PrivateKey),
      (callsOf env w (some o)).filter Event.isSign =
        [Event.createCertificate cert issuer k.PublicKey (some signer)] ∧
      (∀ c, o.TemplateCert = some c → cert = some c) ∧
      (∀ f, o.TemplateCert = none → o.TemplateCertificateFunc = some f → cert = f ()) ∧
      (∀ p, o.ParentKey = some p → signer = p) ∧
      (o.ParentKey = none → signer = k) ∧
      (∀ p, o.ParentCert = some p → issuer = some p) ∧
      (o.ParentCert = none → issuer = cert) ∧
      (o.ParentCert = none → o.ParentKey = none →
        (callsOf env w (some o)).filter Event.isSign =
          [Event.createCertificate cert cert k.PublicKey (some k)]) := by
  obtain ⟨tmpl, cert, issuer, signer, rest, hres, hiss, hsig, hcalls, hrest, htmpl⟩ :=
    after_keygen env w o hname hsrc bits k hcall hk
  have hfilter : (callsOf env w (some o)).filter Event.isSign =
      [Event.createCertificate cert issuer k.PublicKey (some signer)] := by
    rw [hcalls]
    simp [List.filter_cons, Event.isSign, hrest, htmpl]
  refine ⟨cert, issuer, signer, hfilter, ?_, ?_, ?_, ?_, ?_, ?_, ?_⟩
  · intro c hc
    rcases hres with ⟨c', h1, h2, -⟩ | ⟨f, h1, -⟩
    · rw [hc] at h1; cases h1; exact h2
    · rw [hc] at h1; cases h1
  · intro f hT hF
    rcases hres with ⟨c', h1, -⟩ | ⟨f', -, h1, h2, -⟩
    · rw [hT] at h1; cases h1
    · rw [hF] at h1; cases h1; exact h2
  · intro p hp
    rcases hsig with ⟨h1, -⟩ | h1
    · rw [hp] at h1; cases h1
    · rw [hp] at h1; cases h1; rfl
  · intro hp
    rcases hsig with ⟨-, h2⟩ | h1
    · exact h2
    · rw [hp] at h1; cases h1
  · intro p hp
    rcases hiss with ⟨h1, -⟩ | ⟨p', h1, h2⟩
    · rw [hp] at h1; cases h1
    · rw [hp] at h1; cases h1; exact h2
  · intro hp
    rcases hiss with ⟨-, h2⟩ | ⟨p', h1, -⟩
    · exact h2
    · rw [hp] at h1; cases h1
  · intro hpc hpk
    have h1 : issuer = cert := by
      rcases hiss with ⟨-, h2⟩ | ⟨p', h1, -⟩
      · exact h2
      · rw [hpc] at h1; cases h1
    have h2 : signer = k := by
      rcases hsig with ⟨-, h2⟩ | h1
      · exact h2
      · rw [hpk] at h1; cases h1
    rw [hfilter, h1, h2]

/-- Witness of C3: a self-signed request; the descriptor is both template and issuer and the
generated key signs its own public half. -/
theorem signing_inputs_witness :
    ∃ (cert issuer : Option Certificate) (signer : PrivateKey),
      (callsOf sampleEnv emptyWorld (some selfSignedRequest)).filter Event.isSign =
        [Event.createCertificate cert issuer sampleKey.PublicKey (some signer)] ∧
      (∀ c, selfSignedRequest.TemplateCert = some c → cert = some c) ∧
      (∀ f, selfSignedRequest.TemplateCert = none →
        selfSignedRequest.TemplateCertificateFunc = some f → cert = f ()) ∧
      (∀ p, selfSignedRequest.ParentKey = some p → signer = p) ∧
      (selfSignedRequest.ParentKey = none → signer = sampleKey) ∧
      (∀ p, selfSignedRequest.ParentCert = some p → issuer = some p) ∧
      (selfSignedRequest.ParentCert = none → issuer = cert) ∧
      (selfSignedRequest.ParentCert = none → selfSignedRequest.ParentKey = none →
        (callsOf sampleEnv emptyWorld (some selfSignedRequest)).filter Event.isSign =
          [Event.createCertificate cert cert sampleKey.PublicKey (some sampleKey)]) :=
  signing_inputs sampleEnv emptyWorld selfSignedRequest (by decide) (by decide) 2048 sampleKey
    (by decide) rfl

/-- C4, counterexample: the CA request of `example.go`, at its default strength of 2048 bits,
sets `ParentCert` and leaves `ParentKey` nil, and it is signed: the issuer is the certificate of
the request and the signing key is the freshly generated key.  The same happens when the parent
certificate is not the descriptor (`mixedRequest`). -/
theorem parent_pairing_not_enforced :
    (caRequest 2048).ParentCert = some (CommonCertificateTemplate sampleAmbient true) ∧
    (caRequest 2048).ParentKey = none ∧
    (callsOf sampleEnv emptyWorld (some (caRequest 2048))).filter Event.isSign =
      [Event.createCertificate (some (CommonCertificateTemplate sampleAmbient true))
        (some (CommonCertificateTemplate sampleAmbient true)) sampleKey.PublicKey
        (some sampleKey)] ∧
    (GenerateCertificateAndKey sampleEnv emptyWorld (some (caRequest 2048))).1 =
      Outcome.returned (some sampleKey, none) ∧
    mixedRequest.ParentCert = some (CommonCertificateTemplate sampleAmbient true) ∧
    mixedRequest.ParentKey = none ∧
    (callsOf sampleEnv emptyWorld (some mixedRequest)).filter Event.isSign =
      [Event.createCertificate
        (some (ServerCertificateTemplate sampleAmbient ["localhost", "127.0.0.1"]))
        (some (CommonCertificateTemplate sampleAmbient true)) sampleKey.PublicKey
        (some sampleKey)] ∧
    (GenerateCertificateAndKey sampleEnv emptyWorld (some mixedRequest)).1 =
      Outcome.returned (some sampleKey, none) := by
  decide

/-- C4, amended: in every issuance that reaches signing, issuer and signing key are resolved
independently of each other.  Both absent: the issuer is the descriptor and the signing key is
the fresh key.  Both present: the issuer is `ParentCert` and the signing key is `ParentKey`.
`ParentCert` present and `ParentKey` nil: the issuer is `ParentCert` and the signing key is the
fresh key.  `ParentCert` nil and `ParentKey` present: the issuer is the descriptor and the
signing key is `ParentKey`. -/
theorem parent_resolution_independent (env : Env) (w : World) (o : GenerateOptions)
    (hname : o.FileName ≠ "")
    (hsrc : ¬ (o.TemplateCert = none ∧ o.TemplateCertificateFunc = none))
    (bits : Int) (k : PrivateKey)
    (hcall : Event.generateKey bits ∈ callsOf env w (some o))
    (hk : env.generateKey bits = Except.ok k) :
    ∃ cert : Option Certificate,
      (o.ParentCert = none → o.ParentKey = none →
        (callsOf env w (some o)).filter Event.isSign =
          [Event.createCertificate cert cert k.PublicKey (some k)]) ∧
      (∀ pc pk, o.ParentCert = some pc → o.ParentKey = some pk →
        (callsOf env w (some o)).filter Event.isSign =
          [Event.createCertificate cert (some pc) k.PublicKey (some pk)]) ∧
      (∀ pc, o.ParentCert = some pc → o.ParentKey = none →
        (callsOf env w (some o)).filter Event.isSign =
          [Event.createCertificate cert (some pc) k.PublicKey (some k)]) ∧
      (∀ pk, o.ParentCert = none → o.ParentKey = some pk →
        (callsOf env w (some o)).filter Event.isSign =
          [Event.createCertificate cert cert k.PublicKey (some pk)]) := by
  obtain ⟨tmpl, cert, issuer, signer, rest, -, hiss, hsig, hcalls, hrest, htmpl⟩ :=
    after_keygen env w o hname hsrc bits k hcall hk
  have hfilter : (callsOf env w (some o)).filter Event.isSign =
      [Event.createCertificate cert issuer k.PublicKey (some signer)] := by
    rw [hcalls]
    simp [List.filter_cons, Event.isSign, hrest, htmpl]
  refine ⟨cert, ?_, ?_, ?_, ?_⟩
  · intro hpc hpk
    rcases hiss with ⟨-, rfl⟩ | ⟨p, h1, -⟩
    · rcases hsig with ⟨-, rfl⟩ | h2
      · exact hfilter
      · rw [hpk] at h2; cases h2
    · rw [hpc] at h1; cases h1
  · intro pc pk hpc hpk
    rcases hiss with ⟨h1, -⟩ | ⟨p, h1, rfl⟩
    · rw [hpc] at h1; cases h1
    · rcases hsig with ⟨h2, -⟩ | h2
      · rw [hpk] at h2; cases h2
      · rw [hpc] at h1; rw [hpk] at h2; cases h1; cases h2; exact hfilter
  · intro pc hpc hpk
    rcases hiss with ⟨h1, -⟩ | ⟨p, h1, rfl⟩
    · rw [hpc] at h1; cases h1
    · rcases hsig with ⟨-, rfl⟩ | h2
      · rw [hpc] at h1; cases h1; exact hfilter
      · rw [hpk] at h2; cases h2
  · intro pk hpc hpk
    rcases hiss with ⟨-, rfl⟩ | ⟨p, h1, -⟩
    · rcases hsig with ⟨h2, -⟩ | h2
      · rw [hpk] at h2; cases h2
      · rw [hpk] at h2; cases h2; exact hfilter
    · rw [hpc] at h1; cases h1

/-- Witness of the amended C4: the request with `ParentCert` set and `ParentKey` nil. -/
theorem parent_resolution_independent_witness :
    ∃ cert : Option Certificate,
      (callsOf sampleEnv emptyWorld (some mixedRequest)).filter Event.isSign =
        [Event.createCertificate cert (some (CommonCertificateTemplate sampleAmbient true))
          sampleKey.PublicKey (some sampleKey)] :=
  (parent_resolution_independent sampleEnv emptyWorld mixedRequest (by decide) (by decide) 2048
    sampleKey (by decide) rfl).imp
    fun _ h => h.2.2.1 (CommonCertificateTemplate sampleAmbient true) rfl rfl

/-! ## Key strength -/

/-- The sample library honours the contract of `rsa.GenerateKey`: a key it returns has as many
bits as were asked for. -/
theorem sampleEnv_key_size (bits : Int) (k : PrivateKey)
    (h : sampleEnv.generateKey bits = Except.ok k) : (bitLen k.PublicKey.N : Int) = bits := by
  by_cases hb : bits = 2048
  · subst hb
    have hk : k = sampleKey := by
      simp [sampleEnv] at h
      exact h.symm
    subst hk
    have h0 : sampleKey.PublicKey.N ≠ 0 := by decide
    have h1 : Nat.log2 sampleKey.PublicKey.N < 2048 := by
      rw [Nat.log2_lt h0]
      simp only [sampleKey]
      norm_num
    have h2 : ¬ Nat.log2 sampleKey.PublicKey.N < 2047 := by
      rw [Nat.log2_lt h0]
      simp only [sampleKey]
      norm_num
    have h3 : bitLen sampleKey.PublicKey.N = 2048 := by
      unfold bitLen
      rw [if_neg h0]
      omega
    rw [h3]
    rfl
  · simp [sampleEnv, hb] at h

/-- C5: for a request that passes validation, `rsa.GenerateKey` is called once, with 2048 when
`KeyStrength` is not positive and with `KeyStrength` itself when it is positive; no call ever
receives a non-positive strength.  Given that the library returns keys of the size it is asked
for, a successful call with `KeyStrength = N > 0` returns a key of exactly `N` bits. -/
theorem key_strength_resolution (env : Env) (w : World) (o : GenerateOptions)
    (hname : o.FileName ≠ "")
    (hsrc : ¬ (o.TemplateCert = none ∧ o.TemplateCertificateFunc = none)) :
    (o.KeyStrength ≤ 0 → keyGenRequests (callsOf env w (some o)) = [2048]) ∧
    (0 < o.KeyStrength → keyGenRequests (callsOf env w (some o)) = [o.KeyStrength]) ∧
    (∀ b ∈ keyGenRequests (callsOf env w (some o)), 0 < b) ∧
    ((∀ bits k, env.generateKey bits = Except.ok k → (bitLen k.PublicKey.N : Int) = bits) →
      0 < o.KeyStrength → ∀ k,
        (GenerateCertificateAndKey env w (some o)).1 = Outcome.returned (some k, none) →
        (bitLen k.PublicKey.N : Int) = o.KeyStrength) := by
  obtain ⟨tmpl, cert, bits, issuer, hres, hbits, -, hcases⟩ := generate_cases env w o hname hsrc
  have htmpl : keyGenRequests tmpl = [] := by
    rcases hres with ⟨c, -, -, rfl⟩ | ⟨f, -, -, -, rfl⟩ <;> simp [keyGenRequests]
  have hreq : keyGenRequests (callsOf env w (some o)) = [bits] := by
    rcases hcases with ⟨e, -, hG⟩ | ⟨k, signer, -, -, ⟨hp, hG⟩ | ⟨e, -, hG⟩ | ⟨der, -, ⟨e, -, hG⟩ |
      ⟨fd, -, ⟨e, -, hG⟩ | ⟨-, ⟨e, -, hG⟩ | ⟨kb, -, ⟨e, -, hG⟩ | ⟨fd2, -, ⟨e, -, hG⟩ |
      ⟨-, hG⟩⟩⟩⟩⟩⟩⟩ <;>
    · rw [callsOf_eq hG]
      simp only [keyGenRequests, List.filterMap_append] at htmpl ⊢
      rw [htmpl]
      simp
  refine ⟨?_, ?_, ?_, ?_⟩
  · intro h
    rcases hbits with ⟨-, rfl⟩ | ⟨h', -⟩
    · exact hreq
    · omega
  · intro h
    rcases hbits with ⟨h', -⟩ | ⟨-, rfl⟩
    · omega
    · exact hreq
  · intro b hb
    rw [hreq] at hb
    simp at hb
    subst hb
    rcases hbits with ⟨-, rfl⟩ | ⟨h', rfl⟩
    · decide
    · exact h'
  · intro hlib hpos k hret
    have hb : bits = o.KeyStrength := by
      rcases hbits with ⟨h', -⟩ | ⟨-, rfl⟩
      · omega
      · rfl
    rcases hcases with ⟨e, -, hG⟩ | ⟨k', signer, hg, -, ⟨hp, hG⟩ | ⟨e, -, hG⟩ | ⟨der, -, ⟨e, -, hG⟩ |
      ⟨fd, -, ⟨e, -, hG⟩ | ⟨-, ⟨e, -, hG⟩ | ⟨kb, -, ⟨e, -, hG⟩ | ⟨fd2, -, ⟨e, -, hG⟩ |
      ⟨-, hG⟩⟩⟩⟩⟩⟩⟩
    all_goals rw [hG] at hret
    all_goals simp at hret
    subst hret
    rw [← hb]
    exact hlib bits k' hg

/-- Witness of C5: a request for 2048 bits; the sample library returns a 2048-bit key. -/
theorem key_strength_resolution_witness :
    keyGenRequests (callsOf sampleEnv emptyWorld (some (caRequest 2048))) = [2048] ∧
    (bitLen sampleKey.PublicKey.N : Int) = (caRequest 2048).KeyStrength :=
  ⟨(key_strength_resolution sampleEnv emptyWorld (caRequest 2048) (by decide) (by decide)).2.1
      (by decide),
    (key_strength_resolution sampleEnv emptyWorld (caRequest 2048) (by decide) (by decide)).2.2.2
      sampleEnv_key_size (by decide) sampleKey (by decide)⟩

/-! ## Templates -/

/-- C6: `ServerCertificateTemplate hosts` is a non-CA descriptor; its IP-address list is the
parsed addresses of the hosts that `net.ParseIP` accepts, in input order, and its DNS-name list
is the other hosts, in input order, nothing dropped or merged, so the two lengths add up to the
number of hosts.  For `["10.0.0.1", "example.com"]`, the first being an address literal and the
second not, the IP list is that one address and the DNS list is `["example.com"]`.
`ClientCertificateTemplate` has both lists empty. -/
theorem server_template_sans (amb : Ambient) (hosts : List String) :
    (ServerCertificateTemplate amb hosts).IsCA = false ∧
    (ServerCertificateTemplate amb hosts).IPAddresses = hosts.filterMap amb.parseIP ∧
    (ServerCertificateTemplate amb hosts).DNSNames =
      hosts.filter (fun h => (amb.parseIP h).isNone) ∧
    (ServerCertificateTemplate amb hosts).IPAddresses.length +
      (ServerCertificateTemplate amb hosts).DNSNames.length = hosts.length ∧
    (∀ ip, amb.parseIP "10.0.0.1" = some ip → amb.parseIP "example.com" = none →
      (ServerCertificateTemplate amb ["10.0.0.1", "example.com"]).IPAddresses = [ip] ∧
      (ServerCertificateTemplate amb ["10.0.0.1", "example.com"]).DNSNames =
        ["example.com"]) ∧
    (ClientCertificateTemplate amb).IPAddresses = [] ∧
    (ClientCertificateTemplate amb).DNSNames = [] := by
  have key := foldl_sans amb hosts (CommonCertificateTemplate amb false)
  have hip : (ServerCertificateTemplate amb hosts).IPAddresses = hosts.filterMap amb.parseIP := by
    simpa [ServerCertificateTemplate, CommonCertificateTemplate] using key.1
  have hdns : (ServerCertificateTemplate amb hosts).DNSNames =
      hosts.filter (fun h => (amb.parseIP h).isNone) := by
    simpa [ServerCertificateTemplate, CommonCertificateTemplate] using key.2.1
  refine ⟨?_, hip, hdns, ?_, ?_, ?_, ?_⟩
  · simpa [ServerCertificateTemplate, CommonCertificateTemplate] using key.2.2.1
  · rw [hip, hdns]
    exact filterMap_length_add_filter_length amb.parseIP hosts
  · intro ip h1 h2
    simp [ServerCertificateTemplate, CommonCertificateTemplate, h1, h2]
  · simp [ClientCertificateTemplate, CommonCertificateTemplate]
  · simp [ClientCertificateTemplate, CommonCertificateTemplate]

/-- Witness of C6: the example of the claim, read with the sample address parser. -/
theorem server_template_sans_witness :
    (ServerCertificateTemplate sampleAmbient ["10.0.0.1", "example.com"]).IPAddresses =
        [[0, 0, 0, 0, 0, 0, 0, 0, 0, 0, 255, 255, 10, 0, 0, 1]] ∧
      (ServerCertificateTemplate sampleAmbient ["10.0.0.1", "example.com"]).DNSNames =
        ["example.com"] :=
  (server_template_sans sampleAmbient ["10.0.0.1", "example.com"]).2.2.2.2.1
    [0, 0, 0, 0, 0, 0, 0, 0, 0, 0, 255, 255, 10, 0, 0, 1] (by decide) (by decide)

/-- C10: `CommonCertificateTemplate isCA` has `IsCA = isCA` and `BasicConstraintsValid = isCA`;
its key usage is digital-signature with cert-sign and its extended key usage is client-auth,
server-auth, whatever `isCA` is.  Hence in every descriptor built by one of the three
constructors `IsCA` implies `BasicConstraintsValid`, and the server and client descriptors
are not CA descriptors. -/
theorem common_template_ca_flags (amb : Ambient) (isCA : Bool) :
    (CommonCertificateTemplate amb isCA).IsCA = isCA ∧
    (CommonCertificateTemplate amb isCA).BasicConstraintsValid = isCA ∧
    (CommonCertificateTemplate amb isCA).KeyUsage =
      KeyUsageDigitalSignature ||| KeyUsageCertSign ∧
    (CommonCertificateTemplate amb isCA).ExtKeyUsage =
      [ExtKeyUsageClientAuth, ExtKeyUsageServerAuth] ∧
    ((CommonCertificateTemplate amb isCA).IsCA = true →
      (CommonCertificateTemplate amb isCA).BasicConstraintsValid = true) ∧
    (∀ hosts, (ServerCertificateTemplate amb hosts).IsCA = true →
      (ServerCertificateTemplate amb hosts).BasicConstraintsValid = true) ∧
    ((ClientCertificateTemplate amb).IsCA = true →
      (ClientCertificateTemplate amb).BasicConstraintsValid = true) ∧
    (∀ hosts, (ServerCertificateTemplate amb hosts).IsCA = false) ∧
    (ClientCertificateTemplate amb).IsCA = false := by
  have hserver : ∀ hosts, (ServerCertificateTemplate amb hosts).IsCA = false := by
    intro hosts
    have key := foldl_sans amb hosts (CommonCertificateTemplate amb false)
    simpa [ServerCertificateTemplate, CommonCertificateTemplate] using key.2.2.1
  refine ⟨?_, ?_, ?_, ?_, ?_, ?_, ?_, hserver, ?_⟩
  · cases isCA <;> simp [CommonCertificateTemplate]
  · cases isCA <;> simp [CommonCertificateTemplate]
  · cases isCA <;> simp [CommonCertificateTemplate]
  · cases isCA <;> simp [CommonCertificateTemplate]
  · cases isCA <;> simp [CommonCertificateTemplate]
  · intro hosts h
    rw [hserver hosts] at h
    cases h
  · simp [ClientCertificateTemplate, CommonCertificateTemplate]
  · simp [ClientCertificateTemplate, CommonCertificateTemplate]

/-- Witness of C10: the CA descriptor of `example.go`. -/
theorem common_template_ca_flags_witness :
    (CommonCertificateTemplate sampleAmbient true).IsCA = true ∧
    (CommonCertificateTemplate sampleAmbient true).BasicConstraintsValid = true :=
  ⟨(common_template_ca_flags sampleAmbient true).1,
    (common_template_ca_flags sampleAmbient true).2.2.2.2.1
      (common_template_ca_flags sampleAmbient true).1⟩

/-! ## File handles -/

/-- C8, counterexample: with nothing open before the call, `saveFile` returns nil and leaves
descriptor 3 open; when `pem.Encode` fails it returns that error and leaves descriptor 3 open
as well. -/
theorem saveFile_leaves_handle_open :
    emptyWorld.openHandles = [] ∧
    (saveFile sampleEnv emptyWorld "ca" "pem" "CERTIFICATE" [48, 130]).1 = none ∧
    (saveFile sampleEnv emptyWorld "ca" "pem" "CERTIFICATE" [48, 130]).2.openHandles = [3] ∧
    (saveFile encodeFailEnv emptyWorld "ca" "pem" "CERTIFICATE" [48, 130]).1 =
      some (GoError.foreign 5) ∧
    (saveFile encodeFailEnv emptyWorld "ca" "pem" "CERTIFICATE" [48, 130]).2.openHandles =
      [3] := by
  decide

/-- C8, amended: `saveFile` never closes the handle it opens.  When `os.Create` fails, `saveFile`
returns that error and the open handles are those before the call.  When `os.Create` succeeds,
`saveFile` returns what `pem.Encode` returns, nil or an error, and in both cases the open handles
after the call are those before the call followed by the handle `os.Create` returned. -/
theorem saveFile_handles (env : Env) (w : World) (fileName suffix typeName : String)
    (keyBytes : Bytes) :
    (∀ e, env.osCreate (fileName ++ "." ++ suffix) = Except.error e →
      (saveFile env w fileName suffix typeName keyBytes).1 = some e ∧
      (saveFile env w fileName suffix typeName keyBytes).2.openHandles = w.openHandles) ∧
    (∀ fd, env.osCreate (fileName ++ "." ++ suffix) = Except.ok fd →
      (saveFile env w fileName suffix typeName keyBytes).1 =
        env.pemEncode fd { Type_ := typeName, Bytes := keyBytes } ∧
      (saveFile env w fileName suffix typeName keyBytes).2.openHandles =
        w.openHandles ++ [fd]) := by
  constructor
  · intro e h
    simp [saveFile, h, World.record]
  · intro fd h
    simp [saveFile, h, World.record]

/-- Witness of the amended C8, on the path where `pem.Encode` fails. -/
theorem saveFile_handles_witness :
    (saveFile encodeFailEnv emptyWorld "ca" "pem" "CERTIFICATE" [48, 130]).1 =
      encodeFailEnv.pemEncode 3 { Type_ := "CERTIFICATE", Bytes := [48, 130] } ∧
    (saveFile encodeFailEnv emptyWorld "ca" "pem" "CERTIFICATE" [48, 130]).2.openHandles =
      emptyWorld.openHandles ++ [3] :=
  (saveFile_handles encodeFailEnv emptyWorld "ca" "pem" "CERTIFICATE" [48, 130]).2 3 rfl

/-! ## Error propagation -/

/-- C9: for a request that passes validation, whose key generation returns `k` and whose signing
returns the bytes `der`: the run creates `FileName.pem` and, when that succeeds, encodes on its
handle the PEM block labelled `CERTIFICATE` with bytes `der`.  Only when that save succeeded and
`k` serializes to `kb` does it create `FileName.key` and, when that succeeds, encode on its
handle the PEM block labelled `PRIVATE KEY` with bytes `kb`.  The files created are
`FileName.pem` alone or `FileName.pem` then `FileName.key`: the certificate comes first and
no other file is created. -/
theorem artifacts_saved_in_order (env : Env) (w : World) (o : GenerateOptions)
    (hname : o.FileName ≠ "")
    (hsrc : ¬ (o.TemplateCert = none ∧ o.TemplateCertificateFunc = none))
    (bits : Int) (k : PrivateKey)
    (hcall : Event.generateKey bits ∈ callsOf env w (some o))
    (hk : env.generateKey bits = Except.ok k)
    (t p : Option Certificate) (pub : PublicKey) (priv : Option PrivateKey) (der : Bytes)
    (hsign : Event.createCertificate t p pub priv ∈ callsOf env w (some o))
    (hder : env.createCertificate t p pub priv = Outcome.returned (Except.ok der)) :
    (∀ e, env.osCreate (o.FileName ++ ".pem") = Except.error e →
      (callsOf env w (some o)).filter Event.isSave = [Event.osCreate (o.FileName ++ ".pem")]) ∧
    (∀ fd, env.osCreate (o.FileName ++ ".pem") = Except.ok fd →
      (∀ e, env.pemEncode fd { Type_ := "CERTIFICATE", Bytes := der } = some e →
        (callsOf env w (some o)).filter Event.isSave =
          [Event.osCreate (o.FileName ++ ".pem"),
            Event.pemEncode fd { Type_ := "CERTIFICATE", Bytes := der }]) ∧
      (env.pemEncode fd { Type_ := "CERTIFICATE", Bytes := der } = none →
        (∀ e, env.marshalPKCS8PrivateKey k = Except.error e →
          (callsOf env w (some o)).filter Event.isSave =
            [Event.osCreate (o.FileName ++ ".pem"),
              Event.pemEncode fd { Type_ := "CERTIFICATE", Bytes := der }]) ∧
        (∀ kb, env.marshalPKCS8PrivateKey k = Except.ok kb →
          (∀ e, env.osCreate (o.FileName ++ ".key") = Except.error e →
            (callsOf env w (some o)).filter Event.isSave =
              [Event.osCreate (o.FileName ++ ".pem"),
                Event.pemEncode fd { Type_ := "CERTIFICATE", Bytes := der },
                Event.osCreate (o.FileName ++ ".key")]) ∧
          (∀ fd2, env.osCreate (o.FileName ++ ".key") = Except.ok fd2 →
            (callsOf env w (some o)).filter Event.isSave =
              [Event.osCreate (o.FileName ++ ".pem"),
                Event.pemEncode fd { Type_ := "CERTIFICATE", Bytes := der },
                Event.osCreate (o.FileName ++ ".key"),
                Event.pemEncode fd2 { Type_ := "PRIVATE KEY", Bytes := kb }])))) ∧
    (createdFiles (callsOf env w (some o)) = [o.FileName ++ ".pem"] ∨
      createdFiles (callsOf env w (some o)) =
        [o.FileName ++ ".pem", o.FileName ++ ".key"]) := by
  obtain ⟨tmpl, cert, bits', issuer, hres, -, -, hcases⟩ := generate_cases env w o hname hsrc
  have htmpl : tmpl = [] ∨ tmpl = [Event.templateCertificateFunc] := by
    rcases hres with ⟨c, -, -, h⟩ | ⟨f, -, -, -, h⟩
    · exact Or.inl h
    · exact Or.inr h
  clear hres hname hsrc
  rcases hcases with ⟨e', hg, hG⟩ | ⟨k', signer, hg, -, ⟨hs, hG⟩ | ⟨e', hs, hG⟩ |
    ⟨der', hs, ⟨e', hc1, hG⟩ | ⟨fd', hc1, ⟨e', he, hG⟩ | ⟨he, ⟨e', hm, hG⟩ |
    ⟨kb', hm, ⟨e', hc2, hG⟩ | ⟨fd2', hc2, ⟨e', he2, hG⟩ | ⟨he2, hG⟩⟩⟩⟩⟩⟩⟩
  all_goals
    rw [callsOf_eq hG] at hcall hsign ⊢
    clear hG
    rcases htmpl with rfl | rfl <;>
      simp_all [List.filter_cons, Event.isSave, createdFiles]

/-- Witness of C9: the CA request of `example.go`, every call succeeding; `ca.pem` is written
before `ca.key`. -/
theorem artifacts_saved_in_order_witness :
    (callsOf sampleEnv emptyWorld (some (caRequest 2048))).filter Event.isSave =
      [Event.osCreate ((caRequest 2048).FileName ++ ".pem"),
        Event.pemEncode 3 { Type_ := "CERTIFICATE", Bytes := [48, 130, 213] },
        Event.osCreate ((caRequest 2048).FileName ++ ".key"),
        Event.pemEncode 4 { Type_ := "PRIVATE KEY", Bytes := [48, 129, 141] }] :=
  ((((artifacts_saved_in_order sampleEnv emptyWorld (caRequest 2048) (by decide) (by decide) 2048
    sampleKey (by decide) rfl (some (CommonCertificateTemplate sampleAmbient true))
    (some (CommonCertificateTemplate sampleAmbient true)) sampleKey.PublicKey (some sampleKey)
    [48, 130, 213] (by decide) rfl).2.1 3 rfl).2 rfl).2 [48, 129, 141] rfl).2 4 rfl

end Certgen
